import Mathlib

/-!
Verification of the bulk-messaging gateway (`src/server.js`, two concatenated
server variants — the "loop variant" around lines 1-325 and the "queue variant"
around lines 325-695 — plus a third loop-like variant in `src/unnamed/part_000`).

Shallow embedding: the per-recipient send pipeline, the recipient normalization,
the connection lifecycle event handlers and the message queue drain loop are
translated into pure Lean functions over explicit state.  External effects
(the whatsapp-web.js client, the filesystem, mime lookup) are modelled by an
`Env` of oracles, and the calls issued to the client are recorded as a trace.
-/

/-- Models the JS truthiness test `if (message)` on an optional string field:
`undefined`/`null` and the empty string are falsy. -/
def jsTruthy : Option String → Bool
  | none => false
  | some s => !(s == "")

/-- Boolean string-prefix test on character lists; `listBegins pat.data s.data`
models the JS `s.startsWith(pat)`. -/
def listBegins : List Char → List Char → Bool
  | [], _ => true
  | _ :: _, [] => false
  | p :: ps, c :: cs => p == c && listBegins ps cs

/-- Models JS `s.startsWith(pat)` used at `server.js:232` and `server.js:271`. -/
def strBegins (s pat : String) : Bool := listBegins pat.data s.data

/-- Core of the recipient normalization (`server.js:231-234` and
`server.js:618-621`): strip every non-digit character
(`number.toString().replace(/\D/g, "")`), then prepend the country prefix
`"20"` when the result does not already start with it.  `['2','0']` is
`"20".data`, the pattern of `startsWith("20")`. -/
def formatDigits (l : List Char) : List Char :=
  let d := l.filter Char.isDigit
  if listBegins ['2', '0'] d then d else '2' :: '0' :: d

/-- The normalization on strings, as applied to each raw recipient. -/
def formatNumberS (s : String) : String := String.mk (formatDigits s.data)

theorem filter_isDigit_all (l : List Char) :
    (l.filter Char.isDigit).all Char.isDigit = true := by
  induction l with
  | nil => rfl
  | cons c cs ih => cases h : Char.isDigit c <;> simp [List.filter_cons, h, ih]

theorem filter_isDigit_idem (l : List Char) :
    (l.filter Char.isDigit).filter Char.isDigit = l.filter Char.isDigit := by
  induction l with
  | nil => rfl
  | cons c cs ih => cases h : Char.isDigit c <;> simp [List.filter_cons, h, ih]

theorem formatDigits_all (l : List Char) :
    (formatDigits l).all Char.isDigit = true := by
  unfold formatDigits
  cases h : listBegins ['2', '0'] (l.filter Char.isDigit) <;>
    simp [h, filter_isDigit_all, show Char.isDigit '2' = true from rfl,
      show Char.isDigit '0' = true from rfl]

theorem formatDigits_begins (l : List Char) :
    listBegins ['2', '0'] (formatDigits l) = true := by
  unfold formatDigits
  cases h : listBegins ['2', '0'] (l.filter Char.isDigit) <;>
    simp [h, listBegins]

theorem formatDigits_fixed (m : List Char) (h1 : m.filter Char.isDigit = m)
    (h2 : listBegins ['2', '0'] m = true) : formatDigits m = m := by
  unfold formatDigits
  simp [h1, h2]

theorem formatDigits_filter_self (l : List Char) :
    (formatDigits l).filter Char.isDigit = formatDigits l := by
  unfold formatDigits
  cases h : listBegins ['2', '0'] (l.filter Char.isDigit) <;>
    simp [h, List.filter_cons, filter_isDigit_idem,
      show Char.isDigit '2' = true from rfl, show Char.isDigit '0' = true from rfl]

theorem formatDigits_idem (l : List Char) :
    formatDigits (formatDigits l) = formatDigits l :=
  formatDigits_fixed _ (formatDigits_filter_self l) (formatDigits_begins l)

/-- Claim C10: the recipient normalization (strip non-digits, prepend `"20"`
when absent) is idempotent, and its output consists solely of digits and
begins with `"20"`. -/
theorem C10_normalize_idempotent (s : String) :
    formatNumberS (formatNumberS s) = formatNumberS s ∧
    (formatNumberS s).data.all Char.isDigit = true ∧
    listBegins ['2', '0'] (formatNumberS s).data = true := by
  refine ⟨?_, formatDigits_all s.data, formatDigits_begins s.data⟩
  show String.mk (formatDigits (formatDigits s.data)) = String.mk (formatDigits s.data)
  rw [formatDigits_idem]

/-! ## Driver interface and per-task execution -/

/-- Error strings thrown by the handlers (verbatim from `server.js`). -/
def reasonNotRegistered : String := "رقم غير مسجل في واتساب"

def errNoNumbers : String := "يجب توفير قائمة صالحة من الأرقام"

def errNoContent : String := "يجب توفير رسالة أو ملف وسائط"

def errMediaMissing : String := "ملف الوسائط غير موجود"

def errUnsupportedType : String := "نوع الملف غير مدعوم"

/-- In the queue variant (`server.js:429-434`) a failed mime lookup returns a
non-string, so the later `mimeType.startsWith` access raises a TypeError whose
message is modelled by this string. -/
def errMimeTypeError : String := "mimeType.startsWith is not a function"

/-- The loop variant (`server.js:275-278`) wraps any media error before
rethrowing it. -/
def wrapMediaErr (e : String) : String := "فشل في إرسال الوسائط: " ++ e

/-- One call issued to the whatsapp-web.js client, recorded for trace
reasoning: `isRegisteredUser`, text `sendMessage`, or media `sendMessage`
with its `sendMediaAsDocument` flag and `caption` option. -/
inductive DriverCall where
  | isRegistered (chatId : String)
  | sendText (chatId : String) (body : String)
  | sendMedia (chatId : String) (mediaPath : String) (asDocument : Bool) (caption : Option String)
deriving DecidableEq, Repr

def isSendCall : DriverCall → Bool
  | .isRegistered _ => false
  | .sendText _ _ => true
  | .sendMedia _ _ _ _ => true

/-- Oracles for everything outside the handler code: which chat ids the
network reports registered, which staged files exist, their mime type, and
whether each send succeeds (`Except.error e` models a thrown error with
message `e`). -/
structure Env where
  registered : String → Bool
  fileExists : String → Bool
  mimeLookup : String → Option String
  sendTextResult : String → String → Except String Unit
  sendMediaResult : String → String → Bool → Option String → Except String Unit

/-- A queued task as pushed at `server.js:624-630`: the already-normalized
number plus the shared batch `message` and `mediaPaths`. -/
structure QueueTask where
  number : String
  message : Option String
  mediaPaths : List String
deriving DecidableEq, Repr

/-- Terminal result of one per-recipient unit of work: `resolve` with the
number, or `reject` with the number and the error message. -/
inductive TaskResult where
  | fulfilled (number : String)
  | rejected (number : String) (reason : String)
deriving DecidableEq, Repr

/-- The media loop of `processMessageQueue` (`server.js:422-437`): for each
path, check existence, look up the mime type, and send with
`sendMediaAsDocument: mimeType.startsWith("video/")` and `caption: message`
— the same caption on every attachment.  Returns the outcome and the
trace of media sends issued. -/
def sendMediaSeqQueue (env : Env) (chatId : String) (caption : Option String) :
    List String → Except String Unit × List DriverCall
  | [] => (.ok (), [])
  | p :: rest =>
    if env.fileExists p then
      match env.mimeLookup p with
      | some m =>
        match env.sendMediaResult chatId p (strBegins m "video/") caption with
        | .ok _ =>
          let r := sendMediaSeqQueue env chatId caption rest
          (r.1, .sendMedia chatId p (strBegins m "video/") caption :: r.2)
        | .error e => (.error e, [.sendMedia chatId p (strBegins m "video/") caption])
      | none => (.error errMimeTypeError, [])
    else (.error errMediaMissing, [])

/-- Execution of one dequeued task by `processMessageQueue`
(`server.js:410-446`): registration check first; then the media branch if
`mediaPaths` is non-empty, else the text branch if `message` is truthy,
else resolve immediately. -/
def executeTaskQueueVariant (env : Env) (t : QueueTask) : TaskResult × List DriverCall :=
  let chatId := t.number ++ "@c.us"
  if env.registered chatId then
    if t.mediaPaths.isEmpty then
      if jsTruthy t.message then
        let m := t.message.getD ""
        match env.sendTextResult chatId m with
        | .ok _ => (.fulfilled t.number, [.isRegistered chatId, .sendText chatId m])
        | .error e => (.rejected t.number e, [.isRegistered chatId, .sendText chatId m])
      else (.fulfilled t.number, [.isRegistered chatId])
    else
      match sendMediaSeqQueue env chatId t.message t.mediaPaths with
      | (.ok _, tr) => (.fulfilled t.number, .isRegistered chatId :: tr)
      | (.error e, tr) => (.rejected t.number e, .isRegistered chatId :: tr)
  else (.rejected t.number reasonNotRegistered, [.isRegistered chatId])

/-- The media loop of the loop-variant handler (`server.js:250-280`): no
caption is passed, an undeterminable mime type is rejected explicitly, and
every media error is wrapped before rethrowing. -/
def sendMediaSeqLoop (env : Env) (chatId : String) :
    List String → Except String Unit × List DriverCall
  | [] => (.ok (), [])
  | p :: rest =>
    if env.fileExists p then
      match env.mimeLookup p with
      | some m =>
        match env.sendMediaResult chatId p (strBegins m "video/") none with
        | .ok _ =>
          let r := sendMediaSeqLoop env chatId rest
          (r.1, .sendMedia chatId p (strBegins m "video/") none :: r.2)
        | .error e => (.error (wrapMediaErr e), [.sendMedia chatId p (strBegins m "video/") none])
      | none => (.error (wrapMediaErr errUnsupportedType), [])
    else (.error (wrapMediaErr errMediaMissing), [])

/-- One iteration of the loop-variant handler body (`server.js:229-295`):
normalize, check registration, send the text first when truthy, then the
media files; success pushes the formatted number, failure records the raw
input `number` with the error message. -/
def processNumberLoopVariant (env : Env) (message : Option String)
    (mediaPaths : List String) (number : String) : TaskResult × List DriverCall :=
  let fn := formatNumberS number
  let chatId := fn ++ "@c.us"
  if env.registered chatId then
    if jsTruthy message then
      let m := message.getD ""
      match env.sendTextResult chatId m with
      | .error e => (.rejected number e, [.isRegistered chatId, .sendText chatId m])
      | .ok _ =>
        if mediaPaths.isEmpty then (.fulfilled fn, [.isRegistered chatId, .sendText chatId m])
        else
          match sendMediaSeqLoop env chatId mediaPaths with
          | (.ok _, tr) => (.fulfilled fn, .isRegistered chatId :: .sendText chatId m :: tr)
          | (.error e, tr) => (.rejected number e, .isRegistered chatId :: .sendText chatId m :: tr)
    else
      if mediaPaths.isEmpty then (.fulfilled fn, [.isRegistered chatId])
      else
        match sendMediaSeqLoop env chatId mediaPaths with
        | (.ok _, tr) => (.fulfilled fn, .isRegistered chatId :: tr)
        | (.error e, tr) => (.rejected number e, .isRegistered chatId :: tr)
  else (.rejected number reasonNotRegistered, [.isRegistered chatId])

/-! ## Batch handlers -/

/-- The `results` object of both `/send-bulk-messages` handlers: the
`success` array of delivered numbers and the `failed` array of
`(number, reason)` records. -/
structure Results where
  success : List String
  failed : List (String × String)
deriving DecidableEq, Repr

/-- The loop of the loop-variant handler over the raw numbers
(`server.js:229-295`), accumulating `results.success` and `results.failed`
in iteration order. -/
def sendBulkLoopGo (env : Env) (message : Option String) (mediaPaths : List String) :
    List String → Results
  | [] => ⟨[], []⟩
  | n :: rest =>
    let r := sendBulkLoopGo env message mediaPaths rest
    match (processNumberLoopVariant env message mediaPaths n).1 with
    | .fulfilled fn => ⟨fn :: r.success, r.failed⟩
    | .rejected raw e => ⟨r.success, (raw, e) :: r.failed⟩

/-- The whole loop-variant `/send-bulk-messages` handler
(`server.js:210-298`): reject an invalid numbers array, reject when neither
a truthy `message` nor a non-empty `mediaPaths` is supplied, else run the
per-number loop. -/
def sendBulkLoopVariant (env : Env) (numbers : List String) (message : Option String)
    (mediaPaths : List String) : Except String Results :=
  if numbers.isEmpty then .error errNoNumbers
  else if !(jsTruthy message) && mediaPaths.isEmpty then .error errNoContent
  else .ok (sendBulkLoopGo env message mediaPaths numbers)

/-- The tasks pushed onto `messageQueue` by the queue-variant handler
(`server.js:612-632`): none when the numbers array is rejected, otherwise one
task per number carrying the normalized number and the shared message and
media paths.  Note this variant performs no message-or-media validation. -/
def enqueuedTasksQueueVariant (numbers : List String) (message : Option String)
    (mediaPaths : List String) : List QueueTask :=
  if numbers.isEmpty then []
  else numbers.map fun n => ⟨formatNumberS n, message, mediaPaths⟩

/-- Aggregation of the settled per-task promises (`server.js:640-649`):
a fulfilled result pushes its number onto `success`, a rejected one pushes
`(number, reason)` onto `failed`. -/
def aggregateResults : List TaskResult → Results
  | [] => ⟨[], []⟩
  | .fulfilled n :: rest =>
    let r := aggregateResults rest
    ⟨n :: r.success, r.failed⟩
  | .rejected n e :: rest =>
    let r := aggregateResults rest
    ⟨r.success, (n, e) :: r.failed⟩

/-- The queue-variant `/send-bulk-messages` handler (`server.js:601-657`)
under the drain that settles every enqueued task: validate the numbers
array, enqueue one task per number, execute each task in FIFO order, and
aggregate the settled results. -/
def submitBatchQueueVariant (env : Env) (numbers : List String) (message : Option String)
    (mediaPaths : List String) : Except String Results :=
  if numbers.isEmpty then .error errNoNumbers
  else .ok (aggregateResults
    ((enqueuedTasksQueueVariant numbers message mediaPaths).map
      fun t => (executeTaskQueueVariant env t).1))

/-! ## Concrete environments used for witnesses and counterexamples -/

/-- Fully permissive driver: everything registered, every file an existing
jpeg, every send succeeds. -/
def envAllOk : Env where
  registered := fun _ => true
  fileExists := fun _ => true
  mimeLookup := fun _ => some "image/jpeg"
  sendTextResult := fun _ _ => .ok ()
  sendMediaResult := fun _ _ _ _ => .ok ()

/-- Driver reporting no recipient registered. -/
def envNoneRegistered : Env :=
  { envAllOk with registered := fun _ => false }

/-- Driver registering exactly the chat id of the first normalized number of
the C5 example batch. -/
def envFirstOnly : Env :=
  { envAllOk with registered := fun c => c == "200100000001@c.us" }

/-! ## Connection lifecycle state machine (queue variant, `server.js:501-565`)

The handlers registered by `initializeWhatsApp` mutate the module globals
`connectionStatus`, `qrCodeData`, `client`, and `messageQueue`; a fresh
`new Client` construction is counted in `driversConstructed`.  Each queued
task is identified here by a numeric id and its unsettled promise by a
`SinkState` entry; `stepServer` applies the synchronous state mutations of
one handler or external call (the asynchronous drain loop itself is
modelled separately by `drainTrace`). -/

/-- The values taken by the `connectionStatus` global. -/
inductive ConnStatus where
  | disconnected
  | disconnecting
  | initializing
  | waitingForQr
  | connectingPercent (percent : Nat)
  | authenticating
  | connected
deriving DecidableEq, Repr

/-- Settlement state of one queued task promise (`server.js:623-630`). -/
inductive SinkState where
  | pending
  | fulfilledOk
  | rejectedErr (reason : String)
deriving DecidableEq, Repr

/-- The module-level mutable state of the queue-variant server. -/
structure ServerState where
  connectionStatus : ConnStatus
  qrCodeData : Option String
  hasClient : Bool
  driversConstructed : Nat
  messageQueue : List Nat
  sinks : List (Nat × SinkState)
deriving DecidableEq, Repr

/-- An event driving the lifecycle: a call of `initializeWhatsApp`, a task
pushed by the send handler, or one of the client events. -/
inductive ServerEvent where
  | callInitialize
  | enqueueTask (id : Nat)
  | qr (payload : String)
  | loadingScreen (percent : Nat)
  | authenticated
  | ready
  | authFailure
  | disconnectedEv
deriving DecidableEq, Repr

/-- `destroyClient` (`server.js:476-488`): status passes through
`disconnecting` to `disconnected`, the client is dropped and the QR payload
cleared. -/
def destroyClientEffect (s : ServerState) : ServerState :=
  { s with connectionStatus := .disconnected, qrCodeData := none, hasClient := false }

/-- The body of `initializeWhatsApp` (`server.js:501-517`): unconditionally
set status to `initializing` and construct a new client. -/
def initializeEffect (s : ServerState) : ServerState :=
  { s with connectionStatus := .initializing, hasClient := true,
           driversConstructed := s.driversConstructed + 1 }

/-- One step of the lifecycle state machine: the synchronous mutations of
each handler of `server.js:501-565`, of a direct `initializeWhatsApp` call,
and of the `messageQueue.push` at `server.js:624-630`.  The `disconnected`
handler (`server.js:548-554`) destroys the client, reassigns
`messageQueue = []`, and re-initializes; it does not touch the per-task
promises, so `sinks` is left unchanged. -/
def stepServer (s : ServerState) : ServerEvent → ServerState
  | .callInitialize => initializeEffect s
  | .enqueueTask id =>
      { s with messageQueue := s.messageQueue ++ [id],
               sinks := s.sinks ++ [(id, .pending)] }
  | .qr payload => { s with connectionStatus := .waitingForQr, qrCodeData := some payload }
  | .loadingScreen p => { s with connectionStatus := .connectingPercent p }
  | .authenticated => { s with connectionStatus := .authenticating }
  | .ready => { s with connectionStatus := .connected, qrCodeData := none }
  | .authFailure => { s with connectionStatus := .disconnected }
  | .disconnectedEv =>
      initializeEffect { destroyClientEffect s with messageQueue := [] }

/-- State right after server start (`server.js:567` runs
`initializeWhatsApp()` on the initial globals). -/
def initServerState : ServerState :=
  initializeEffect ⟨.disconnected, none, false, 0, [], []⟩

/-! ## Drain loop model (`processMessageQueue`, `server.js:403-453`) -/

/-- Begin/end of one task execution against the client, by task number. -/
inductive ExecEvent where
  | startTask (number : String)
  | finishTask (number : String)
deriving DecidableEq, Repr

/-- The execution trace of the `while` loop of `processMessageQueue`
(`server.js:409-450`): take the head task, execute it to completion, shift
it off, repeat. -/
def drainTrace : List QueueTask → List ExecEvent
  | [] => []
  | t :: rest => .startTask t.number :: .finishTask t.number :: drainTrace rest

/-- The guard of `processMessageQueue` (`server.js:404-406`): a call made
while `isProcessingQueue` is set, or with an empty queue, returns without
executing anything; otherwise the single consumer drains the queue. -/
def processMessageQueueModel (isProcessingQueue : Bool) (queue : List QueueTask) :
    List ExecEvent :=
  if isProcessingQueue || queue.isEmpty then [] else drainTrace queue

/-- A trace is serial when it is a sequence of immediately completed
executions: each started task finishes before the next starts. -/
def serialTrace : List ExecEvent → Bool
  | [] => true
  | .startTask n :: .finishTask m :: rest => n == m && serialTrace rest
  | _ => false

/-- The task numbers in the order their executions start. -/
def startsOf : List ExecEvent → List String
  | [] => []
  | .startTask n :: rest => n :: startsOf rest
  | .finishTask _ :: rest => startsOf rest

/-! ## Claims about the lifecycle state machine and the drain loop -/

/-- Claim C1, refuted at a concrete reachable state: start the server, reach
`connected`, enqueue three tasks, then fire the `disconnected` event.  The
queue is emptied, but every completion sink is still pending — none resolves
with a TransportError, so a waiting batch caller never receives an outcome. -/
theorem C1_counterexample :
    (List.foldl stepServer initServerState
      [.ready, .enqueueTask 0, .enqueueTask 1, .enqueueTask 2, .disconnectedEv]).messageQueue
        = [] ∧
    (List.foldl stepServer initServerState
      [.ready, .enqueueTask 0, .enqueueTask 1, .enqueueTask 2, .disconnectedEv]).sinks
        = [(0, .pending), (1, .pending), (2, .pending)] := by
  decide

/-- Claim C1 (amended): the `disconnected` handler empties the queue, leaves
every completion sink untouched (queued tasks are dropped without ever being
resolved or rejected), and tears down and re-initializes the driver. -/
theorem C1_amended (s : ServerState) :
    (stepServer s .disconnectedEv).messageQueue = [] ∧
    (stepServer s .disconnectedEv).sinks = s.sinks ∧
    (stepServer s .disconnectedEv).connectionStatus = .initializing ∧
    (stepServer s .disconnectedEv).driversConstructed = s.driversConstructed + 1 := by
  simp [stepServer, initializeEffect, destroyClientEffect]

/-- Claim C6, refuted: from the reachable AwaitingPairing state with one
driver constructed, two immediate `initializeWhatsApp` calls construct two
further drivers (three in total), so the call is not a no-op outside
Disconnected. -/
theorem C6_counterexample :
    (stepServer initServerState (.qr "QR1")).connectionStatus = .waitingForQr ∧
    (stepServer initServerState (.qr "QR1")).driversConstructed = 1 ∧
    (stepServer (stepServer (stepServer initServerState (.qr "QR1")) .callInitialize)
      .callInitialize).driversConstructed = 3 := by
  decide

/-- Claim C6 (amended): `initializeWhatsApp` is unguarded — every call,
from any state, constructs exactly one new ConnectionDriver and moves the
state to Initializing. -/
theorem C6_amended (s : ServerState) :
    (stepServer s .callInitialize).driversConstructed = s.driversConstructed + 1 ∧
    (stepServer s .callInitialize).connectionStatus = .initializing := by
  simp [stepServer, initializeEffect]

/-- Claim C7, refuted at a reachable state: after a pairing challenge is
stored, the `authenticated` event moves the state to Authenticating without
clearing the challenge, so a non-AwaitingPairing state is observed together
with a non-null pairing challenge. -/
theorem C7_counterexample :
    (List.foldl stepServer initServerState [.qr "QR1", .authenticated]).connectionStatus
        = .authenticating ∧
    (List.foldl stepServer initServerState [.qr "QR1", .authenticated]).qrCodeData
        = some "QR1" := by
  decide

/-- Claim C7 (amended): the pairing challenge is cleared by the `ready`
transition and by driver destruction on `disconnected`, but the
`authenticated` transition leaves it unchanged while moving the state to
Authenticating. -/
theorem C7_amended (s : ServerState) :
    (stepServer s .ready).qrCodeData = none ∧
    (stepServer s .disconnectedEv).qrCodeData = none ∧
    (stepServer s .authenticated).qrCodeData = s.qrCodeData ∧
    (stepServer s .authenticated).connectionStatus = .authenticating := by
  simp [stepServer, initializeEffect, destroyClientEffect]

/-- Claim C8: the drain loop of `processMessageQueue` executes tasks one at
a time — every execution finishes before the next starts — in exact queue
(FIFO) order, and a second invocation made while `isProcessingQueue` is set
executes nothing, so there is a single active consumer. -/
theorem C8_fifo_serial :
    (∀ q : List QueueTask, serialTrace (drainTrace q) = true) ∧
    (∀ q : List QueueTask, startsOf (drainTrace q) = q.map QueueTask.number) ∧
    (∀ q : List QueueTask, processMessageQueueModel true q = []) := by
  refine ⟨?_, ?_, ?_⟩
  · intro q
    induction q with
    | nil => rfl
    | cons t rest ih => simp [drainTrace, serialTrace, ih]
  · intro q
    induction q with
    | nil => rfl
    | cons t rest ih => simp [drainTrace, startsOf, ih]
  · intro q
    simp [processMessageQueueModel]

/-! ## Claims about the batch handlers -/

theorem sendBulkLoopGo_length (env : Env) (message : Option String)
    (mediaPaths : List String) (numbers : List String) :
    (sendBulkLoopGo env message mediaPaths numbers).success.length +
      (sendBulkLoopGo env message mediaPaths numbers).failed.length = numbers.length := by
  induction numbers with
  | nil => rfl
  | cons n rest ih =>
    simp only [sendBulkLoopGo]
    cases h : (processNumberLoopVariant env message mediaPaths n).1 with
    | fulfilled fn =>
      simp only [List.length_cons]
      omega
    | rejected raw e =>
      simp only [List.length_cons]
      omega

theorem aggregateResults_length (outs : List TaskResult) :
    (aggregateResults outs).success.length + (aggregateResults outs).failed.length
      = outs.length := by
  induction outs with
  | nil => rfl
  | cons o rest ih =>
    cases o with
    | fulfilled n =>
      simp only [aggregateResults, List.length_cons]
      omega
    | rejected n e =>
      simp only [aggregateResults, List.length_cons]
      omega

/-- Claim C2: whenever a batch of N recipients passes validation and a
report is produced — in the loop variant, and in the queue variant with the
drain settling every task — the report satisfies
`success.length + failed.length = N`: each recipient contributes exactly
one terminal outcome, in exactly one of the two collections. -/
theorem C2_outcome_count :
    (∀ (env : Env) (numbers : List String) (message : Option String)
        (mediaPaths : List String) (r : Results),
      sendBulkLoopVariant env numbers message mediaPaths = .ok r →
      r.success.length + r.failed.length = numbers.length) ∧
    (∀ (env : Env) (numbers : List String) (message : Option String)
        (mediaPaths : List String) (r : Results),
      submitBatchQueueVariant env numbers message mediaPaths = .ok r →
      r.success.length + r.failed.length = numbers.length) := by
  constructor
  · intro env numbers message mediaPaths r h
    unfold sendBulkLoopVariant at h
    split at h
    · simp at h
    · split at h
      · simp at h
      · injection h with h
        subst h
        exact sendBulkLoopGo_length env message mediaPaths numbers
  · intro env numbers message mediaPaths r h
    unfold submitBatchQueueVariant at h
    split at h
    · simp at h
    · rename_i hne
      injection h with h
      subst h
      rw [aggregateResults_length, List.length_map]
      unfold enqueuedTasksQueueVariant
      rw [if_neg hne, List.length_map]

/-- Closed instantiation of C2 at a concrete accepted batch. -/
theorem C2_outcome_count_witness :
    sendBulkLoopVariant envAllOk ["0100000001"] (some "hi") []
      = .ok ⟨["200100000001"], []⟩ ∧
    (["200100000001"] : List String).length + ([] : List (String × String)).length = 1 ∧
    submitBatchQueueVariant envAllOk ["0100000001"] (some "hi") []
      = .ok ⟨["200100000001"], []⟩ ∧
    (["200100000001"] : List String).length + ([] : List (String × String)).length = 1 := by
  refine ⟨by rfl, ?_, by rfl, ?_⟩
  · exact C2_outcome_count.1 envAllOk ["0100000001"] (some "hi") []
      ⟨["200100000001"], []⟩ (by rfl)
  · exact C2_outcome_count.2 envAllOk ["0100000001"] (some "hi") []
      ⟨["200100000001"], []⟩ (by rfl)

/-- Claim C3, refuted on the queue variant: a batch with a recipient but
neither a message nor media paths passes validation (`server.js:612-614`
only checks the numbers array), enqueues one task, and that task even
resolves as delivered without any send being attempted. -/
theorem C3_counterexample :
    submitBatchQueueVariant envAllOk ["100000002"] none []
      = .ok ⟨["20100000002"], []⟩ ∧
    (enqueuedTasksQueueVariant ["100000002"] none []).length = 1 := by
  exact ⟨by rfl, by rfl⟩

/-- Claim C3 (amended): an empty recipients list is rejected with zero tasks
by both variants; a batch with neither a truthy text body nor attachments is
rejected only by the loop variant — the queue variant performs no such check
and enqueues one task per recipient whenever the recipients list is
non-empty. -/
theorem C3_amended (env : Env) (numbers : List String) (message : Option String)
    (mediaPaths : List String) :
    (numbers = [] →
      sendBulkLoopVariant env numbers message mediaPaths = .error errNoNumbers ∧
      submitBatchQueueVariant env numbers message mediaPaths = .error errNoNumbers ∧
      enqueuedTasksQueueVariant numbers message mediaPaths = []) ∧
    (jsTruthy message = false → mediaPaths = [] →
      ∀ r : Results, sendBulkLoopVariant env numbers message mediaPaths ≠ .ok r) ∧
    (numbers ≠ [] →
      (enqueuedTasksQueueVariant numbers message mediaPaths).length = numbers.length) := by
  refine ⟨?_, ?_, ?_⟩
  · intro h
    subst h
    exact ⟨rfl, rfl, rfl⟩
  · intro hm hp r
    subst hp
    unfold sendBulkLoopVariant
    cases hn : numbers.isEmpty <;> simp [hm]
  · intro hne
    unfold enqueuedTasksQueueVariant
    rw [if_neg (by simpa using hne), List.length_map]

/-- Closed instantiation of the amended C3 at concrete batches. -/
theorem C3_amended_witness :
    sendBulkLoopVariant envAllOk [] (some "hi") [] = .error errNoNumbers ∧
    sendBulkLoopVariant envAllOk ["100000002"] none [] ≠ .ok ⟨["20100000002"], []⟩ ∧
    (enqueuedTasksQueueVariant ["100000002"] none []).length = ["100000002"].length := by
  refine ⟨((C3_amended envAllOk [] (some "hi") []).1 rfl).1,
    (C3_amended envAllOk ["100000002"] none []).2.1 rfl rfl ⟨["20100000002"], []⟩,
    (C3_amended envAllOk ["100000002"] none []).2.2 (by simp)⟩

/-- Claim C4: a recipient whose chat id the driver reports as not registered
has no `sendMessage` call issued for it — neither text nor media — and its
outcome is the not-registered rejection; proved for the queue-variant task
execution and for the loop-variant per-number body. -/
theorem C4_not_registered_no_send :
    (∀ (env : Env) (t : QueueTask),
      env.registered (t.number ++ "@c.us") = false →
      (executeTaskQueueVariant env t).1 = .rejected t.number reasonNotRegistered ∧
      ((executeTaskQueueVariant env t).2).all (fun c => !(isSendCall c)) = true) ∧
    (∀ (env : Env) (message : Option String) (mediaPaths : List String) (n : String),
      env.registered (formatNumberS n ++ "@c.us") = false →
      (processNumberLoopVariant env message mediaPaths n).1
        = .rejected n reasonNotRegistered ∧
      ((processNumberLoopVariant env message mediaPaths n).2).all
        (fun c => !(isSendCall c)) = true) := by
  constructor
  · intro env t h
    unfold executeTaskQueueVariant
    simp [h, isSendCall]
  · intro env message mediaPaths n h
    unfold processNumberLoopVariant
    simp [h, isSendCall]

/-- Closed instantiation of C4 with a driver registering nobody. -/
theorem C4_not_registered_no_send_witness :
    ((executeTaskQueueVariant envNoneRegistered ⟨"123", some "hi", []⟩).1
        = .rejected "123" reasonNotRegistered ∧
      ((executeTaskQueueVariant envNoneRegistered ⟨"123", some "hi", []⟩).2).all
        (fun c => !(isSendCall c)) = true) ∧
    ((processNumberLoopVariant envNoneRegistered (some "hi") [] "123").1
        = .rejected "123" reasonNotRegistered ∧
      ((processNumberLoopVariant envNoneRegistered (some "hi") [] "123").2).all
        (fun c => !(isSendCall c)) = true) :=
  ⟨C4_not_registered_no_send.1 envNoneRegistered ⟨"123", some "hi", []⟩ rfl,
   C4_not_registered_no_send.2 envNoneRegistered (some "hi") [] "123" rfl⟩

/-- Claim C5, refuted: the code does not strip the leading zero, so the
first recipient of the example batch normalizes to `"200100000001"`, not to
the claimed `"20100000001"`; with the driver registering exactly that first
normalized address, the loop-variant report keys the failure by the raw
input `"100000002"`, not by the normalized address. -/
theorem C5_counterexample :
    formatNumberS "0100000001" ≠ "20100000001" ∧
    sendBulkLoopVariant envFirstOnly ["0100000001", "100000002"] (some "hi") []
      = .ok ⟨["200100000001"], [("100000002", reasonNotRegistered)]⟩ := by
  exact ⟨by decide, by rfl⟩

/-- Claim C5 (amended): on the example batch the normalized addresses are
`"200100000001"` and `"20100000002"`; with only the first registered, the
loop variant delivers `["200100000001"]` and records the failure under the
raw input, while the queue variant records it under the normalized
address. -/
theorem C5_amended :
    formatNumberS "0100000001" = "200100000001" ∧
    formatNumberS "100000002" = "20100000002" ∧
    sendBulkLoopVariant envFirstOnly ["0100000001", "100000002"] (some "hi") []
      = .ok ⟨["200100000001"], [("100000002", reasonNotRegistered)]⟩ ∧
    submitBatchQueueVariant envFirstOnly ["0100000001", "100000002"] (some "hi") []
      = .ok ⟨["200100000001"], [("20100000002", reasonNotRegistered)]⟩ := by
  exact ⟨by decide, by decide, by rfl, by rfl⟩

/-- Checker for one recorded call: every media send must carry the given
caption and a document flag equal to the video test of the mime type the
lookup returned for its path; non-media calls pass vacuously. -/
def mediaCallOk (env : Env) (caption : Option String) : DriverCall → Bool
  | .sendMedia _ p d c =>
      c == caption &&
      (match env.mimeLookup p with
       | some m => d == strBegins m "video/"
       | none => false)
  | _ => true


theorem sendMediaSeqQueue_calls (env : Env) (chatId : String) (caption : Option String)
    (paths : List String) :
    ∀ c ∈ (sendMediaSeqQueue env chatId caption paths).2, mediaCallOk env caption c = true := by
  induction paths with
  | nil =>
    intro c hc
    simp [sendMediaSeqQueue] at hc
  | cons p rest ih =>
    intro c hc
    unfold sendMediaSeqQueue at hc
    cases hf : env.fileExists p
    · simp [hf] at hc
    · cases hm : env.mimeLookup p with
      | none => simp [hf, hm] at hc
      | some m =>
        cases hs : env.sendMediaResult chatId p (strBegins m "video/") caption with
        | ok u =>
          simp [hf, hm, hs] at hc
          rcases hc with hc | hc
          · subst hc
            simp [mediaCallOk, hm]
          · exact ih c hc
        | error e =>
          simp [hf, hm, hs] at hc
          subst hc
          simp [mediaCallOk, hm]

/-- Claim C9, refuted: a task with a text body and two attachments issues
both media sends with `caption` equal to the text body — the second
attachment is not sent caption-less as claimed (`server.js:433-436` passes
`caption: message` on every iteration). -/
theorem C9_counterexample :
    (executeTaskQueueVariant envAllOk ⟨"20100000001", some "hi", ["a.jpg", "b.jpg"]⟩).2
      = [.isRegistered "20100000001@c.us",
         .sendMedia "20100000001@c.us" "a.jpg" false (some "hi"),
         .sendMedia "20100000001@c.us" "b.jpg" false (some "hi")] ∧
    (some "hi" : Option String) ≠ none := by
  exact ⟨by rfl, by decide⟩

/-- Claim C9 (amended): every media send of a task carries
`sendMediaAsDocument` set exactly when the looked-up mime type starts with
`video/`, and carries the caption equal to the task's text body — on every
attachment, not only the first. -/
theorem C9_amended (env : Env) (t : QueueTask) :
    ∀ c ∈ (executeTaskQueueVariant env t).2, mediaCallOk env t.message c = true := by
  intro c hc
  unfold executeTaskQueueVariant at hc
  cases hr : env.registered (t.number ++ "@c.us")
  · simp [hr] at hc
    subst hc
    rfl
  · cases he : t.mediaPaths.isEmpty
    · cases hq : sendMediaSeqQueue env (t.number ++ "@c.us") t.message t.mediaPaths with
      | mk res tr =>
        have htr := sendMediaSeqQueue_calls env (t.number ++ "@c.us") t.message t.mediaPaths
        rw [hq] at htr
        cases res with
        | ok u =>
          simp [hr, he, hq] at hc
          rcases hc with hc | hc
          · subst hc
            rfl
          · exact htr c hc
        | error e =>
          simp [hr, he, hq] at hc
          rcases hc with hc | hc
          · subst hc
            rfl
          · exact htr c hc
    · cases hj : jsTruthy t.message
      · simp [hr, he, hj] at hc
        subst hc
        rfl
      · cases hs : env.sendTextResult (t.number ++ "@c.us") (t.message.getD "") with
        | ok u =>
          simp [hr, he, hj, hs] at hc
          rcases hc with hc | hc <;> subst hc <;> rfl
        | error e =>
          simp [hr, he, hj, hs] at hc
          rcases hc with hc | hc <;> subst hc <;> rfl

/-- Closed instantiation of the amended C9: the second attachment's media
send of a concrete two-attachment task satisfies the checker. -/
theorem C9_amended_witness :
    mediaCallOk envAllOk (some "hi")
      (.sendMedia "20100000001@c.us" "b.jpg" false (some "hi")) = true :=
  C9_amended envAllOk ⟨"20100000001", some "hi", ["a.jpg", "b.jpg"]⟩
    (.sendMedia "20100000001@c.us" "b.jpg" false (some "hi")) (by decide)
